import Mathlib

/-!
Verification of the PantryToPlate backend (src/main.go, src/allqueries.sql).

The program is a Go HTTP service with five routes over one Postgres table
`public.pantry_items`.  We shallow-embed it: the table becomes a list of
rows, each pgx statement becomes a function on an explicit database state
(which also records whether the next statement errors, the uuid the
database will assign to the next insert, the value of `now()`, and a
counter of executed statements), and each gin handler becomes a pure
function from the state and the request data to an HTTP response paired
with the successor state.
-/

namespace PantryToPlate

/-- JSON values as serialised by gin's `c.JSON`.  Objects keep their field
order; `time.Time` / `timestamptz` values are abstracted to `num`. -/
inductive Json where
  | null
  | bool (b : Bool)
  | num (n : Nat)
  | str (s : String)
  | arr (xs : List Json)
  | obj (fields : List (String × Json))

/-- `true` exactly on `Json.arr` values. -/
def Json.isArr : Json → Bool
  | .arr _ => true
  | _ => false

/-- Last-occurrence key lookup in a JSON object's field list (Go's
`encoding/json` keeps the last duplicate key). -/
def jsonLookup (fields : List (String × Json)) (key : String) : Option Json :=
  ((fields.filter (fun p => p.1 == key)).getLast?).map (fun p => p.2)

/-- Field lookup on a JSON value: `none` when the value is not an object
or the key is absent. -/
def Json.lookupKey : Json → String → Option Json
  | .obj fields, k => jsonLookup fields k
  | _, _ => none

/-- Row of `public.pantry_items` / the Go struct `PantryItem`
(src/main.go lines 15-21): `quantity` is a nullable text column, modelled
as `Option String`; `created_at` is abstracted to a `Nat` timestamp. -/
structure PantryItem where
  id : String
  user_id : String
  name : String
  quantity : Option String
  created_at : Nat
  deriving Repr, DecidableEq

/-- The Go struct `CreatePantryItemRequest` (src/main.go lines 23-27):
`Quantity *string` is a nullable pointer, modelled as `Option String`. -/
structure CreatePantryItemRequest where
  user_id : String
  name : String
  quantity : Option String
  deriving Repr, DecidableEq

/-- JSON serialisation of a `PantryItem`, following the struct's json tags
(field order as declared). -/
def itemToJson (it : PantryItem) : Json :=
  .obj [("id", .str it.id), ("user_id", .str it.user_id),
        ("name", .str it.name),
        ("quantity", match it.quantity with | none => .null | some s => .str s),
        ("created_at", .num it.created_at)]

/-- Database state seen by the handlers: the rows of `pantry_items`, the
uuid Postgres will generate for the next insert, the value of `now()`,
whether the next statement fails (and with which driver error text), and
a count of statements executed so far. -/
structure DBState where
  rows : List PantryItem
  nextId : String
  now : Nat
  failing : Bool
  errText : String
  queries : Nat
  deriving Repr, DecidableEq

/-- HTTP response: status code plus JSON body. -/
structure HttpResponse where
  status : Nat
  body : Json

/-- `insert into public.pantry_items (user_id, name, quantity) values
($1,$2,$3) returning id, user_id, name, quantity, created_at`
(src/main.go lines 106-118): one row is appended, with the
server-assigned id and timestamp, and returned. -/
def dbInsert (db : DBState) (uid nm : String) (qty : Option String) :
    Except String PantryItem × DBState :=
  if db.failing then
    (.error db.errText, { db with queries := db.queries + 1 })
  else
    let row : PantryItem :=
      { id := db.nextId, user_id := uid, name := nm, quantity := qty,
        created_at := db.now }
    (.ok row, { db with rows := db.rows ++ [row], queries := db.queries + 1 })

/-- The SQL ordering relation `order by created_at desc`. -/
def createdDesc (a b : PantryItem) : Prop :=
  b.created_at ≤ a.created_at

instance : DecidableRel createdDesc := fun a b =>
  inferInstanceAs (Decidable (b.created_at ≤ a.created_at))

instance : IsTotal PantryItem createdDesc :=
  ⟨fun a b => le_total b.created_at a.created_at⟩

instance : IsTrans PantryItem createdDesc :=
  ⟨fun _ _ _ hab hbc => le_trans hbc hab⟩

/-- Sort rows by `created_at` descending (ties in database order are not
specified by SQL; insertion sort fixes one permutation). -/
def sortByCreatedDesc (l : List PantryItem) : List PantryItem :=
  l.insertionSort createdDesc

/-- `select id, user_id, name, quantity, created_at from
public.pantry_items where user_id = $1 order by created_at desc`
(src/main.go lines 137-144): reads only. -/
def dbSelectByUser (db : DBState) (uid : String) :
    Except String (List PantryItem) × DBState :=
  if db.failing then
    (.error db.errText, { db with queries := db.queries + 1 })
  else
    (.ok (sortByCreatedDesc (db.rows.filter (fun r => r.user_id == uid))),
     { db with queries := db.queries + 1 })

/-- `delete from public.pantry_items where id = $1` (src/main.go lines
172-173): removes the matching rows and reports the affected-row count
(`cmdTag.RowsAffected()`). -/
def dbDelete (db : DBState) (idv : String) : Except String Nat × DBState :=
  if db.failing then
    (.error db.errText, { db with queries := db.queries + 1 })
  else
    (.ok (db.rows.filter (fun r => r.id == idv)).length,
     { db with rows := db.rows.filter (fun r => !(r.id == idv)),
               queries := db.queries + 1 })

/-- `select now()` (src/main.go line 72): the connectivity probe. -/
def dbSelectNow (db : DBState) : Except String Nat × DBState :=
  if db.failing then
    (.error db.errText, { db with queries := db.queries + 1 })
  else
    (.ok db.now, { db with queries := db.queries + 1 })

/-- Unmarshal a string field of a JSON object as Go's `encoding/json`
does for a `string` struct field: absent or `null` leaves the zero value
`""`; a non-string value is a bind error (`none`). -/
def decodeStrField (fields : List (String × Json)) (key : String) :
    Option String :=
  match jsonLookup fields key with
  | none => some ""
  | some .null => some ""
  | some (.str s) => some s
  | some _ => none

/-- Unmarshal a `*string` field as Go's `encoding/json` does: absent or
`null` leaves the nil pointer; a non-string value is a bind error. -/
def decodeOptStrField (fields : List (String × Json)) (key : String) :
    Option (Option String) :=
  match jsonLookup fields key with
  | none => some none
  | some .null => some none
  | some (.str s) => some (some s)
  | some _ => none

/-- `c.ShouldBindJSON(&req)` for `CreatePantryItemRequest` on an
already-parsed JSON document: fails unless the document is an object
whose present fields have the right types. -/
def bindCreateRequest : Json → Option CreatePantryItemRequest
  | .obj fields => do
      let uid ← decodeStrField fields "user_id"
      let nm ← decodeStrField fields "name"
      let q ← decodeOptStrField fields "quantity"
      pure { user_id := uid, name := nm, quantity := q }
  | _ => none

/-- Stand-in for the text of gin's JSON bind error (`err.Error()` in the
400 branch of the POST handler); its exact content comes from the gin
library and is opaque to this program. -/
def bindErrMsg : String := "bind error"

/-- Handler of `GET /` (src/main.go lines 60-62). -/
def rootHandler (db : DBState) : HttpResponse × DBState :=
  ({ status := 200, body := .obj [("message", .str "PantryToPlate API running")] }, db)

/-- Handler of `GET /health` (src/main.go lines 65-67). -/
def healthHandler (db : DBState) : HttpResponse × DBState :=
  ({ status := 200, body := .obj [("status", .str "ok")] }, db)

/-- Handler of `GET /db-test` (src/main.go lines 70-78). -/
def dbTestHandler (db : DBState) : HttpResponse × DBState :=
  match dbSelectNow db with
  | (.error e, db2) =>
      ({ status := 500,
         body := .obj [("error", .str "db query failed"), ("details", .str e)] }, db2)
  | (.ok t, db2) =>
      ({ status := 200, body := .obj [("db_time", .num t)] }, db2)

/-- Handler of `POST /pantry/items` (src/main.go lines 85-126).  The
request body is `none` when the raw body is not parseable JSON; bind
failure and parse failure share the same 400 branch, as in the Go code. -/
def postHandler (db : DBState) (reqBody : Option Json) : HttpResponse × DBState :=
  match reqBody.bind bindCreateRequest with
  | none =>
      ({ status := 400,
         body := .obj [("error", .str "invalid JSON body"),
                       ("details", .str bindErrMsg)] }, db)
  | some req =>
      if req.user_id = "" then
        ({ status := 400,
           body := .obj [("error", .str "user_id is required (use 'demo_user' for MVP)")] }, db)
      else if req.name = "" then
        ({ status := 400, body := .obj [("error", .str "name is required")] }, db)
      else
        match dbInsert db req.user_id req.name req.quantity with
        | (.error e, db2) =>
            ({ status := 500,
               body := .obj [("error", .str "failed to insert pantry item"),
                             ("details", .str e)] }, db2)
        | (.ok item, db2) =>
            ({ status := 201, body := itemToJson item }, db2)

/-- Handler of `GET /pantry/items` (src/main.go lines 130-162).
`userIdParam` is the raw query parameter; `c.Query "user_id"` yields `""`
both when the parameter is absent and when it is present but empty.  A
row-scan failure shares the query-failure 500 (the `failing` flag). -/
def listHandler (db : DBState) (userIdParam : Option String) :
    HttpResponse × DBState :=
  let userID := userIdParam.getD ""
  if userID = "" then
    ({ status := 400,
       body := .obj [("error", .str "user_id query param is required (example: ?user_id=demo_user)")] }, db)
  else
    match dbSelectByUser db userID with
    | (.error e, db2) =>
        ({ status := 500,
           body := .obj [("error", .str "failed to query pantry items"),
                         ("details", .str e)] }, db2)
    | (.ok items, db2) =>
        ({ status := 200,
           body := .obj [("items", .arr (items.map itemToJson))] }, db2)

/-- Handler of `DELETE /pantry/items/:id` (src/main.go lines 165-186). -/
def deleteHandler (db : DBState) (idParam : String) : HttpResponse × DBState :=
  if idParam = "" then
    ({ status := 400, body := .obj [("error", .str "id is required")] }, db)
  else
    match dbDelete db idParam with
    | (.error e, db2) =>
        ({ status := 500,
           body := .obj [("error", .str "failed to delete pantry item"),
                         ("details", .str e)] }, db2)
    | (.ok affected, db2) =>
        if affected = 0 then
          ({ status := 404, body := .obj [("error", .str "item not found")] }, db2)
        else
          ({ status := 200,
             body := .obj [("deleted", .bool true), ("id", .str idParam)] }, db2)

/-- `dropLit s pat` returns the remainder of `s` after the literal pattern
`pat`, or `none` when `s` does not start with `pat`. -/
def dropLit : List Char → List Char → Option (List Char)
  | s, [] => some s
  | [], _ :: _ => none
  | c :: s, d :: p => if c = d then dropLit s p else none

/-- Route matching of gin's router for the pattern `/pantry/items/:id`:
a named parameter captures exactly one non-empty path segment, so the
pattern matches `/pantry/items/<seg>` with `<seg>` non-empty and free of
`/`, and `c.Param "id"` returns that segment. -/
def matchDeleteRoute (path : String) : Option String :=
  match dropLit path.toList "/pantry/items/".toList with
  | none => none
  | some seg =>
      if seg = [] ∨ '/' ∈ seg then none else some (String.mk seg)

/-! ### Sample states and requests used by witnesses and counterexamples -/

/-- A reachable database state with no rows and a healthy connection. -/
def dbEmpty : DBState :=
  { rows := [], nextId := "uuid-1", now := 5, failing := false,
    errText := "", queries := 0 }

/-- A database state whose next statement fails. -/
def dbDown : DBState :=
  { rows := [], nextId := "uuid-1", now := 5, failing := true,
    errText := "connection refused", queries := 0 }

/-- A stored item, used by concrete witnesses. -/
def itemMilk : PantryItem :=
  { id := "uuid-0", user_id := "demo_user", name := "Milk",
    quantity := none, created_at := 3 }

/-- A reachable state holding exactly `itemMilk`. -/
def dbOne : DBState :=
  { rows := [itemMilk], nextId := "uuid-1", now := 7, failing := false,
    errText := "", queries := 1 }

/-- Items with increasing timestamps, used to witness the ordering. -/
def itemEggs : PantryItem :=
  { id := "uuid-2", user_id := "demo_user", name := "Eggs",
    quantity := some "12", created_at := 4 }

/-- A later item for the ordering witness. -/
def itemTea : PantryItem :=
  { id := "uuid-3", user_id := "demo_user", name := "Tea",
    quantity := none, created_at := 9 }

/-- State holding three rows of the same owner, inserted in the order
`itemMilk` (t=3), `itemEggs` (t=4), `itemTea` (t=9). -/
def dbThree : DBState :=
  { rows := [itemMilk, itemEggs, itemTea], nextId := "uuid-4", now := 11,
    failing := false, errText := "", queries := 3 }

/-- Shape actually shared by all error responses: an `error` field is
always present, and every 500 additionally carries a `details` field
holding exactly the driver error text. -/
def errorShapeOK (errText : String) (r : HttpResponse) : Prop :=
  (400 ≤ r.status → (Json.lookupKey r.body "error").isSome = true) ∧
  (r.status = 500 →
    Json.lookupKey r.body "details" = some (.str errText))

/-! ### Helper lemmas: the read statements leave the rows untouched -/

theorem dbSelectNow_rows (db : DBState) : (dbSelectNow db).2.rows = db.rows := by
  unfold dbSelectNow; split <;> rfl

theorem dbSelectByUser_rows (db : DBState) (uid : String) :
    (dbSelectByUser db uid).2.rows = db.rows := by
  unfold dbSelectByUser; split <;> rfl

/-! ### Claims -/

/-- C6: every `GET /health` request returns 200 with body
`{"status":"ok"}`, for every database state (reachable or not), and
returns the state unchanged (no side effects). -/
theorem C6_health_static (db : DBState) :
    healthHandler db =
      ({ status := 200, body := .obj [("status", .str "ok")] }, db) := rfl

/-- C7: `GET /db-test` returns 500 with the driver error text as detail
exactly when the connectivity probe fails, and otherwise 200 with the
database's current timestamp. -/
theorem C7_dbtest_contract (db : DBState) :
    ((dbTestHandler db).1.status = 500 ↔ db.failing = true) ∧
    (db.failing = true →
      (dbTestHandler db).1.body =
        .obj [("error", .str "db query failed"),
              ("details", .str db.errText)]) ∧
    (db.failing = false →
      (dbTestHandler db).1.status = 200 ∧
      (dbTestHandler db).1.body = .obj [("db_time", .num db.now)]) := by
  cases h : db.failing <;>
    simp [dbTestHandler, dbSelectNow, h]

/-- Witness for C7 at concrete states: failing probe gives 500 with the
driver text, healthy probe gives 200 with the timestamp. -/
theorem C7_dbtest_witness :
    ((dbTestHandler dbDown).1.body =
       .obj [("error", .str "db query failed"),
             ("details", .str "connection refused")]) ∧
    ((dbTestHandler dbEmpty).1.status = 200 ∧
     (dbTestHandler dbEmpty).1.body = .obj [("db_time", .num 5)]) :=
  ⟨(C7_dbtest_contract dbDown).2.1 rfl, (C7_dbtest_contract dbEmpty).2.2 rfl⟩

/-- C10: the read endpoints `GET /`, `GET /health` and
`GET /pantry/items` (and the probe `GET /db-test`) never change the
stored rows: the table after the handler equals the table before, for
every state and every query parameter. -/
theorem C10_reads_preserve_rows (db : DBState) (p : Option String) :
    (rootHandler db).2.rows = db.rows ∧
    (healthHandler db).2.rows = db.rows ∧
    (dbTestHandler db).2.rows = db.rows ∧
    (listHandler db p).2.rows = db.rows := by
  refine ⟨rfl, rfl, ?_, ?_⟩
  · unfold dbTestHandler
    have hrows := dbSelectNow_rows db
    split <;> rename_i heq <;> rw [heq] at hrows <;> exact hrows
  · unfold listHandler
    by_cases hp : p.getD "" = ""
    · simp [hp]
    · simp only [hp, if_false]
      have hrows := dbSelectByUser_rows db (p.getD "")
      split <;> rename_i heq <;> rw [heq] at hrows <;> exact hrows

/-- C9: the 400 branch of the `DELETE /pantry/items/:id` handler is
unreachable: whenever the router matches a path to the route, the
captured `id` parameter is non-empty, so the handler never answers 400. -/
theorem C9_delete_400_unreachable (path seg : String) (db : DBState)
    (h : matchDeleteRoute path = some seg) :
    seg ≠ "" ∧ (deleteHandler db seg).1.status ≠ 400 := by
  unfold matchDeleteRoute at h
  have hne : seg ≠ "" := by
    split at h
    · exact absurd h (by simp)
    · rename_i rest hd
      split at h
      · exact absurd h (by simp)
      · rename_i hc
        injection h with h2
        subst h2
        intro hmk
        have hrest : rest = [] := (congrArg String.data hmk).trans rfl
        exact hc (Or.inl hrest)
  refine ⟨hne, ?_⟩
  unfold deleteHandler
  rw [if_neg hne]
  unfold dbDelete
  cases hf : db.failing
  · simp only [if_false, Bool.false_eq_true]
    by_cases hz : (db.rows.filter (fun r => r.id == seg)).length = 0 <;>
      simp [hz]
  · simp

/-- Witness for C9: the route matches `/pantry/items/abc` with parameter
`abc`, and the handler does not answer 400 there. -/
theorem C9_delete_400_unreachable_witness :
    "abc" ≠ "" ∧ (deleteHandler dbDown "abc").1.status ≠ 400 :=
  C9_delete_400_unreachable "/pantry/items/abc" "abc" dbDown (by rfl)

/-- C3: for a `DELETE /pantry/items/:id` request (non-empty id), a failing
statement answers 500; when the statement succeeds, the handler answers
404 exactly when zero rows were affected (no stored row has that id), and
otherwise 200 with the confirmation body. -/
theorem C3_delete_contract (db : DBState) (idp : String) (hid : idp ≠ "") :
    (db.failing = true → (deleteHandler db idp).1.status = 500) ∧
    (db.failing = false →
      ((deleteHandler db idp).1.status = 404 ↔
        (db.rows.filter (fun r => r.id == idp)).length = 0) ∧
      ((db.rows.filter (fun r => r.id == idp)).length ≠ 0 →
        (deleteHandler db idp).1.status = 200 ∧
        (deleteHandler db idp).1.body =
          .obj [("deleted", .bool true), ("id", .str idp)])) := by
  unfold deleteHandler dbDelete
  rw [if_neg hid]
  constructor
  · intro hf; simp [hf]
  · intro hf
    by_cases hz : (db.rows.filter (fun r => r.id == idp)).length = 0 <;>
      simp [hf, hz]

/-- Witness for C3: deleting the stored id answers 200 with confirmation;
deleting a missing id answers 404. -/
theorem C3_delete_contract_witness :
    ((deleteHandler dbOne "uuid-0").1.status = 200 ∧
     (deleteHandler dbOne "uuid-0").1.body =
       .obj [("deleted", .bool true), ("id", .str "uuid-0")]) ∧
    (deleteHandler dbOne "zzz").1.status = 404 := by
  refine ⟨((C3_delete_contract dbOne "uuid-0" (by decide)).2 rfl).2 (by decide), ?_⟩
  exact ((C3_delete_contract dbOne "zzz" (by decide)).2 rfl).1.mpr (by decide)

/-- C4: a POST whose bound request has empty `user_id` or empty `name`
answers 400, leaves the database state unchanged, and a subsequent
listing for any owner returns exactly what it returned before. -/
theorem C4_validation_leaves_db (db : DBState) (reqBody : Option Json)
    (req : CreatePantryItemRequest)
    (hb : reqBody.bind bindCreateRequest = some req)
    (h : req.user_id = "" ∨ req.name = "") :
    (postHandler db reqBody).1.status = 400 ∧
    (postHandler db reqBody).2 = db ∧
    ∀ p, listHandler (postHandler db reqBody).2 p = listHandler db p := by
  unfold postHandler
  rw [hb]
  rcases h with h | h
  · simp [h]
  · by_cases hu : req.user_id = "" <;> simp [hu, h]

/-- Witness for C4: posting `{"user_id":"demo_user","name":""}` to the
one-row state answers 400 and leaves the state intact. -/
theorem C4_validation_leaves_db_witness :
    (postHandler dbOne (some (Json.obj [("user_id", .str "demo_user"),
        ("name", .str "")]))).1.status = 400 ∧
    (postHandler dbOne (some (Json.obj [("user_id", .str "demo_user"),
        ("name", .str "")]))).2 = dbOne ∧
    ∀ p, listHandler (postHandler dbOne (some (Json.obj
        [("user_id", .str "demo_user"), ("name", .str "")]))).2 p =
      listHandler dbOne p :=
  C4_validation_leaves_db dbOne _
    { user_id := "demo_user", name := "", quantity := none }
    (by rfl) (Or.inr rfl)

/-- C1: `POST /pantry/items` contract.  A malformed body or failed bind
answers 400 with no statement executed and the state unchanged; an empty
`user_id` or `name` likewise answers 400 touching nothing; a failing
insert answers 500 with the driver text as detail and stores nothing;
otherwise exactly one row is appended and the handler answers 201 with
the full persisted record (server-assigned id and timestamp, given
`user_id`, `name` and `quantity`). -/
theorem C1_post_contract (db : DBState) (reqBody : Option Json) :
    (reqBody.bind bindCreateRequest = none →
      (postHandler db reqBody).1.status = 400 ∧
      (postHandler db reqBody).2 = db ∧
      (postHandler db reqBody).2.queries = db.queries) ∧
    (∀ req, reqBody.bind bindCreateRequest = some req →
      ((req.user_id = "" ∨ req.name = "") →
        (postHandler db reqBody).1.status = 400 ∧
        (postHandler db reqBody).2 = db ∧
        (postHandler db reqBody).2.queries = db.queries) ∧
      (req.user_id ≠ "" → req.name ≠ "" →
        (db.failing = true →
          (postHandler db reqBody).1.status = 500 ∧
          (postHandler db reqBody).1.body =
            .obj [("error", .str "failed to insert pantry item"),
                  ("details", .str db.errText)] ∧
          (postHandler db reqBody).2.rows = db.rows) ∧
        (db.failing = false →
          (postHandler db reqBody).1.status = 201 ∧
          (postHandler db reqBody).2.rows =
            db.rows ++ [{ id := db.nextId, user_id := req.user_id,
                          name := req.name, quantity := req.quantity,
                          created_at := db.now }] ∧
          (postHandler db reqBody).1.body =
            itemToJson { id := db.nextId, user_id := req.user_id,
                         name := req.name, quantity := req.quantity,
                         created_at := db.now }))) := by
  unfold postHandler
  constructor
  · intro hnone; rw [hnone]; exact ⟨rfl, rfl, rfl⟩
  · intro req hsome; rw [hsome]
    constructor
    · rintro (h | h)
      · simp [h]
      · by_cases hu : req.user_id = "" <;> simp [hu, h]
    · intro hu hn
      constructor
      · intro hf; simp [hu, hn, hf, dbInsert]
      · intro hf; simp [hu, hn, hf, dbInsert]

/-- Witness for C1: posting `{"user_id":"demo_user","name":"Milk"}` to the
empty healthy state answers 201, appends exactly the persisted row, and
echoes it as the body. -/
theorem C1_post_contract_witness :
    (postHandler dbEmpty (some (Json.obj [("user_id", .str "demo_user"),
        ("name", .str "Milk")]))).1.status = 201 ∧
    (postHandler dbEmpty (some (Json.obj [("user_id", .str "demo_user"),
        ("name", .str "Milk")]))).2.rows =
      [] ++ [{ id := "uuid-1", user_id := "demo_user", name := "Milk",
               quantity := none, created_at := 5 }] ∧
    (postHandler dbEmpty (some (Json.obj [("user_id", .str "demo_user"),
        ("name", .str "Milk")]))).1.body =
      itemToJson { id := "uuid-1", user_id := "demo_user", name := "Milk",
                   quantity := none, created_at := 5 } :=
  ((C1_post_contract dbEmpty (some (Json.obj [("user_id", .str "demo_user"),
      ("name", .str "Milk")]))).2
    { user_id := "demo_user", name := "Milk", quantity := none }
    (by rfl)).2 (by decide) (by decide) |>.2 rfl

/-- Counterexample to C2 as stated: for an owner with zero items the
handler answers 200, but the body is the object `{"items": []}`, not a
JSON array. -/
theorem C2_body_not_array_counterexample :
    (listHandler dbEmpty (some "demo_user")).1.status = 200 ∧
    (listHandler dbEmpty (some "demo_user")).1.body =
      .obj [("items", .arr [])] ∧
    Json.isArr (listHandler dbEmpty (some "demo_user")).1.body = false :=
  ⟨rfl, rfl, rfl⟩

/-- C2 (amended): an absent `user_id` answers 400; otherwise, on a
healthy database the handler answers 200 with the object whose `items`
field is the JSON array of exactly the rows owned by `user_id`, ordered
by `created_at` descending (empty array, not an error, when the owner has
no rows); a failing query answers 500. -/
theorem C2_list_contract (db : DBState) (p : Option String) :
    (p = none → (listHandler db p).1.status = 400) ∧
    (∀ uid, p = some uid → uid ≠ "" →
      (db.failing = true → (listHandler db p).1.status = 500) ∧
      (db.failing = false →
        (listHandler db p).1.status = 200 ∧
        (listHandler db p).1.body =
          .obj [("items", .arr ((sortByCreatedDesc
            (db.rows.filter (fun r => r.user_id == uid))).map itemToJson))] ∧
        (sortByCreatedDesc (db.rows.filter (fun r => r.user_id == uid))).Perm
          (db.rows.filter (fun r => r.user_id == uid)) ∧
        List.Sorted createdDesc
          (sortByCreatedDesc (db.rows.filter (fun r => r.user_id == uid))) ∧
        (db.rows.filter (fun r => r.user_id == uid) = [] →
          (listHandler db p).1.body = .obj [("items", .arr [])]))) := by
  constructor
  · intro hp; subst hp; rfl
  · intro uid hp hne; subst hp
    constructor
    · intro hf
      simp [listHandler, dbSelectByUser, hne, hf]
    · intro hf
      refine ⟨?_, ?_, List.perm_insertionSort createdDesc _,
        List.sorted_insertionSort createdDesc _, ?_⟩
      · simp [listHandler, dbSelectByUser, hne, hf]
      · simp [listHandler, dbSelectByUser, hne, hf, sortByCreatedDesc]
      · intro hemp
        simp [listHandler, dbSelectByUser, hne, hf, sortByCreatedDesc, hemp]

/-- Witness for C2: listing `demo_user` over three rows answers 200 and
the `items` array holds all three rows newest-first. -/
theorem C2_list_contract_witness :
    (listHandler dbThree (some "demo_user")).1.status = 200 ∧
    (listHandler dbThree (some "demo_user")).1.body =
      .obj [("items", .arr ([itemTea, itemEggs, itemMilk].map itemToJson))] := by
  have h := ((C2_list_contract dbThree (some "demo_user")).2 "demo_user"
    rfl (by decide)).2 rfl
  exact ⟨h.1, h.2.1.trans (by rfl)⟩

/-- Counterexample to C5 as stated: the 400 answered to a POST with empty
`user_id` carries an `error` field but no `details` field. -/
theorem C5_missing_details_counterexample :
    (postHandler dbEmpty (some (Json.obj [("user_id", .str ""),
        ("name", .str "Milk")]))).1.status = 400 ∧
    (Json.lookupKey (postHandler dbEmpty (some (Json.obj
        [("user_id", .str ""), ("name", .str "Milk")]))).1.body
      "error").isSome = true ∧
    Json.lookupKey (postHandler dbEmpty (some (Json.obj
        [("user_id", .str ""), ("name", .str "Milk")]))).1.body
      "details" = none :=
  ⟨rfl, rfl, rfl⟩

/-- C5 (amended): every error response of every handler (400, 404 or 500)
carries an `error` field; every 500 carries a `details` field equal to
the driver error text, and the malformed-JSON 400 carries a `details`
field with the bind error text; the empty-field validation 400s of the
POST, list and delete handlers and the delete 404 carry no `details`
field at all. -/
theorem C5_error_shape (db : DBState) (reqBody : Option Json)
    (p : Option String) (idp : String) :
    errorShapeOK db.errText (rootHandler db).1 ∧
    errorShapeOK db.errText (healthHandler db).1 ∧
    errorShapeOK db.errText (dbTestHandler db).1 ∧
    errorShapeOK db.errText (postHandler db reqBody).1 ∧
    errorShapeOK db.errText (listHandler db p).1 ∧
    errorShapeOK db.errText (deleteHandler db idp).1 ∧
    (reqBody.bind bindCreateRequest = none →
      (postHandler db reqBody).1.status = 400 ∧
      Json.lookupKey (postHandler db reqBody).1.body "details" =
        some (.str bindErrMsg)) ∧
    (∀ req, reqBody.bind bindCreateRequest = some req →
      (postHandler db reqBody).1.status = 400 →
      Json.lookupKey (postHandler db reqBody).1.body "details" = none) ∧
    ((listHandler db p).1.status = 400 →
      Json.lookupKey (listHandler db p).1.body "details" = none) ∧
    (((deleteHandler db idp).1.status = 400 ∨
        (deleteHandler db idp).1.status = 404) →
      Json.lookupKey (deleteHandler db idp).1.body "details" = none) := by
  refine ⟨⟨?_, ?_⟩, ⟨?_, ?_⟩, ⟨?_, ?_⟩, ⟨?_, ?_⟩, ⟨?_, ?_⟩, ⟨?_, ?_⟩,
    ?_, ?_, ?_, ?_⟩
  · intro hs; exact absurd hs (by simp [rootHandler])
  · intro hs; exact absurd hs (by simp [rootHandler])
  · intro hs; exact absurd hs (by simp [healthHandler])
  · intro hs; exact absurd hs (by simp [healthHandler])
  · intro hs
    unfold dbTestHandler dbSelectNow at hs ⊢
    cases hf : db.failing <;> simp [hf] at hs ⊢ <;> try rfl
  · intro hs
    unfold dbTestHandler dbSelectNow at hs ⊢
    cases hf : db.failing <;> simp [hf] at hs ⊢ <;> try rfl
  · intro hs
    unfold postHandler at hs ⊢
    rcases hb : reqBody.bind bindCreateRequest with _ | req
    · rfl
    · by_cases hu : req.user_id = "" <;>
        by_cases hn : req.name = "" <;>
        cases hf : db.failing <;>
        simp [hb, hu, hn, hf, dbInsert] at hs ⊢ <;> try rfl
  · intro hs
    unfold postHandler at hs ⊢
    rcases hb : reqBody.bind bindCreateRequest with _ | req
    · simp [hb] at hs
    · by_cases hu : req.user_id = "" <;>
        by_cases hn : req.name = "" <;>
        cases hf : db.failing <;>
        simp [hb, hu, hn, hf, dbInsert] at hs ⊢ <;> try rfl
  · intro hs
    unfold listHandler dbSelectByUser at hs ⊢
    by_cases hp : p.getD "" = "" <;>
      cases hf : db.failing <;>
      simp [hp, hf] at hs ⊢ <;> try rfl
  · intro hs
    unfold listHandler dbSelectByUser at hs ⊢
    by_cases hp : p.getD "" = "" <;>
      cases hf : db.failing <;>
      simp [hp, hf] at hs ⊢ <;> try rfl
  · intro hs
    unfold deleteHandler dbDelete at hs ⊢
    by_cases hi : idp = "" <;>
      cases hf : db.failing <;>
      by_cases hz : (db.rows.filter (fun r => r.id == idp)).length = 0 <;>
      simp [hi, hf, hz] at hs ⊢ <;> try rfl
  · intro hs
    unfold deleteHandler dbDelete at hs ⊢
    by_cases hi : idp = "" <;>
      cases hf : db.failing <;>
      by_cases hz : (db.rows.filter (fun r => r.id == idp)).length = 0 <;>
      simp [hi, hf, hz] at hs ⊢ <;> try rfl
  · intro hb
    unfold postHandler
    rw [hb]
    exact ⟨rfl, rfl⟩
  · intro req hb hst
    unfold postHandler at hst ⊢
    rw [hb] at hst ⊢
    by_cases hu : req.user_id = ""
    · simp [hu] <;> rfl
    · by_cases hn : req.name = ""
      · simp [hu, hn] <;> rfl
      · cases hf : db.failing <;>
          simp [hu, hn, hf, dbInsert] at hst
  · intro hst
    unfold listHandler at hst ⊢
    by_cases hp : p.getD "" = ""
    · simp [hp] <;> rfl
    · cases hf : db.failing <;>
        simp [hp, hf, dbSelectByUser] at hst
  · intro h
    unfold deleteHandler at h ⊢
    by_cases hi : idp = ""
    · simp [hi] <;> rfl
    · cases hf : db.failing <;>
        by_cases hz : (db.rows.filter (fun r => r.id == idp)).length = 0 <;>
        simp [hi, hf, hz, dbDelete] at h ⊢ <;> try rfl

/-- Witness for C5 (amended): the 404 from deleting a missing id carries
an `error` field and no `details` field; the 500 from a failing list
query carries the driver text as `details`; a non-object body gives the
malformed-JSON 400 whose `details` is the bind error text. -/
theorem C5_error_shape_witness :
    (Json.lookupKey (deleteHandler dbOne "zzz").1.body "error").isSome = true ∧
    Json.lookupKey (deleteHandler dbOne "zzz").1.body "details" = none ∧
    Json.lookupKey (listHandler dbDown (some "demo_user")).1.body "details" =
      some (.str "connection refused") ∧
    Json.lookupKey (postHandler dbEmpty (some (Json.str "oops"))).1.body
      "details" = some (.str bindErrMsg) :=
  ⟨(C5_error_shape dbOne none none "zzz").2.2.2.2.2.1.1 (by decide),
   (C5_error_shape dbOne none none "zzz").2.2.2.2.2.2.2.2.2 (Or.inr (by decide)),
   (C5_error_shape dbDown none (some "demo_user") "x").2.2.2.2.1.2 (by decide),
   ((C5_error_shape dbEmpty (some (Json.str "oops")) none "x").2.2.2.2.2.2.1
     rfl).2⟩

/-- Appending one field to a JSON object shifts last-occurrence lookup:
the new field wins on its own key and is invisible on every other key. -/
theorem jsonLookup_append_single (fields : List (String × Json))
    (k : String) (v : Json) (key : String) :
    jsonLookup (fields ++ [(k, v)]) key =
      if key = k then some v else jsonLookup fields key := by
  unfold jsonLookup
  rw [List.filter_append]
  by_cases h : key = k
  · subst h
    simp [List.getLast?_concat]
  · have hk : ((k, v).1 == key) = false := by
      simp [BEq.beq]
      exact fun he => h he.symm
    simp [hk, h]

/-- C8: for a request object with no `quantity` field, bound to a request
with non-empty `user_id` and `name`, adding an explicit `"quantity": null`
field changes nothing: the bind result is the same, the bound quantity is
the nil pointer, the handler's full answer (response and state) is
identical for both bodies, and on a healthy database the answer is 201
with `quantity` null in the echoed record. -/
theorem C8_null_quantity_equals_absent (db : DBState)
    (fields : List (String × Json)) (req : CreatePantryItemRequest)
    (hq : jsonLookup fields "quantity" = none)
    (hb : bindCreateRequest (.obj fields) = some req)
    (hu : req.user_id ≠ "") (hn : req.name ≠ "") :
    bindCreateRequest (.obj (fields ++ [("quantity", Json.null)])) = some req ∧
    req.quantity = none ∧
    postHandler db (some (.obj (fields ++ [("quantity", Json.null)]))) =
      postHandler db (some (.obj fields)) ∧
    (db.failing = false →
      (postHandler db (some (.obj fields))).1.status = 201 ∧
      Json.lookupKey (postHandler db (some (.obj fields))).1.body "quantity" =
        some Json.null) := by
  have hqd : decodeOptStrField fields "quantity" = some none := by
    unfold decodeOptStrField; rw [hq]
  have hred : ∀ l, bindCreateRequest (.obj l) =
      (decodeStrField l "user_id").bind (fun uid =>
        (decodeStrField l "name").bind (fun nm =>
          (decodeOptStrField l "quantity").bind (fun q =>
            some { user_id := uid, name := nm, quantity := q }))) :=
    fun _ => rfl
  have h1 : decodeStrField (fields ++ [("quantity", Json.null)]) "user_id" =
      decodeStrField fields "user_id" := by
    unfold decodeStrField
    rw [jsonLookup_append_single,
      if_neg (by decide : ¬("user_id" = "quantity"))]
  have h2 : decodeStrField (fields ++ [("quantity", Json.null)]) "name" =
      decodeStrField fields "name" := by
    unfold decodeStrField
    rw [jsonLookup_append_single, if_neg (by decide : ¬("name" = "quantity"))]
  have h3 : decodeOptStrField (fields ++ [("quantity", Json.null)])
      "quantity" = some none := by
    unfold decodeOptStrField
    rw [jsonLookup_append_single, if_pos rfl]
  have hbind2 : bindCreateRequest (.obj (fields ++ [("quantity", Json.null)])) =
      bindCreateRequest (.obj fields) := by
    rw [hred, hred, h1, h2, h3, hqd]
  have hqn : req.quantity = none := by
    rw [hred] at hb
    rcases hu2 : decodeStrField fields "user_id" with _ | uid <;>
      rw [hu2] at hb
    · exact absurd hb (by simp)
    · rcases hn2 : decodeStrField fields "name" with _ | nm <;>
        rw [hn2] at hb
      · exact absurd hb (by simp)
      · rw [hqd] at hb
        simp at hb
        rw [← hb]
  have hcong : postHandler db (some (.obj (fields ++ [("quantity", Json.null)]))) =
      postHandler db (some (.obj fields)) := by
    unfold postHandler
    rw [show (some (Json.obj (fields ++ [("quantity", Json.null)]))).bind
          bindCreateRequest =
        (some (Json.obj fields)).bind bindCreateRequest from hbind2]
  refine ⟨hbind2.trans hb, hqn, hcong, ?_⟩
  intro hf
  have hb2 : (some (Json.obj fields)).bind bindCreateRequest = some req := hb
  unfold postHandler
  rw [hb2]
  constructor
  · simp [hu, hn, hf, dbInsert]
  · simp only [Option.bind_some]
    simp [hu, hn, hf, dbInsert, itemToJson, hqn]
    rfl

/-- Witness for C8 at `{"user_id":"demo_user","name":"Milk"}`: adding
`"quantity": null` leaves the bind result, the stored row and the answer
unchanged, and the echoed record carries a null quantity. -/
theorem C8_null_quantity_equals_absent_witness :
    bindCreateRequest (.obj ([("user_id", .str "demo_user"),
        ("name", .str "Milk")] ++ [("quantity", Json.null)])) =
      some { user_id := "demo_user", name := "Milk", quantity := none } ∧
    ({ user_id := "demo_user", name := "Milk",
       quantity := none } : CreatePantryItemRequest).quantity = none ∧
    postHandler dbEmpty (some (.obj ([("user_id", .str "demo_user"),
        ("name", .str "Milk")] ++ [("quantity", Json.null)]))) =
      postHandler dbEmpty (some (.obj [("user_id", .str "demo_user"),
        ("name", .str "Milk")])) ∧
    (dbEmpty.failing = false →
      (postHandler dbEmpty (some (.obj [("user_id", .str "demo_user"),
          ("name", .str "Milk")]))).1.status = 201 ∧
      Json.lookupKey (postHandler dbEmpty (some (.obj
          [("user_id", .str "demo_user"),
           ("name", .str "Milk")]))).1.body "quantity" = some Json.null) :=
  C8_null_quantity_equals_absent dbEmpty
    [("user_id", .str "demo_user"), ("name", .str "Milk")]
    { user_id := "demo_user", name := "Milk", quantity := none }
    (by rfl) (by rfl) (by decide) (by decide)

end PantryToPlate
